import Mathlib

/-!
Shallow embedding of `main.py` of the auto-backup-gdrive repository.

Python strings are modelled as `List Char`.  The remote backend, the local
filesystem and the clock are modelled as explicit environments; the run of
`upload_files` produces a trace of backend calls (authentication, folder
creation, per-file upload `execute()` calls) together with its outcome
(normal return, or a propagating Python exception).
-/

/-- Python exceptions that can propagate out of the modelled functions.
`fileNotFoundError` models `FileNotFoundError`; `otherError` models any other
exception (`HttpError` escaping a non-upload call, `DefaultCredentialsError`,
...).  `main` maps every one of them to exit code 1. -/
inductive PyErr
  | fileNotFoundError
  | otherError
deriving DecidableEq, Repr

/-- The character class of `re.sub(r'[<>:"/\\|?*]', '_', name)` in
`sanitize_filename` (main.py line 26). -/
def forbiddenChars : List Char := ['<', '>', ':', '"', '/', '\\', '|', '?', '*']

/-- main.py lines 25-26: `re.sub(r'[<>:"/\\|?*]', '_', name)` — each character
of the class is a single-character match replaced by a single `_`, every other
character is kept, so the substitution is a character-wise map. -/
def sanitize_filename (s : List Char) : List Char :=
  s.map (fun c => if c ∈ forbiddenChars then '_' else c)

/-- Python's `x or y` for an optional string `x` (argparse gives `None` when
`--name` is absent): `None` and the empty string are falsy, any other string
is truthy.  Models `folder_name or directory.name` (main.py line 137). -/
def pyOr (x : Option (List Char)) (y : List Char) : List Char :=
  match x with
  | some s => if s.isEmpty then y else s
  | none => y

/-- main.py lines 85-86 (`create_drive_folder`): the folder display name is
`sanitize_filename(f"{folder_name}_{current_date}")`; the timestamp string is
a parameter (it is `datetime.now().strftime('%d-%m-%Y_%H-%M-%S')` at run
time). -/
def create_drive_folder_name (folder_name timestamp : List Char) : List Char :=
  sanitize_filename (folder_name ++ '_' :: timestamp)

/-- The destination folder name of a run: main.py line 137 computes
`folder_base_name = folder_name or directory.name` and line 138 passes it to
`create_drive_folder`. -/
def destFolderName (callerName : Option (List Char)) (dirName timestamp : List Char) :
    List Char :=
  create_drive_folder_name (pyOr callerName dirName) timestamp

/-- The destination folder name as the spec's words describe it: "the
caller-supplied name if given, else the root directory's base name", then the
timestamp suffix, then each of `<>:"/\|?*` replaced by `_`.  Written from the
spec for comparison with `destFolderName` (which is written from the code). -/
def destFolderNameSpec (callerName : Option (List Char)) (dirName timestamp : List Char) :
    List Char :=
  ((callerName.getD dirName) ++ '_' :: timestamp).map
    (fun c => if c ∈ ['<', '>', ':', '"', '/', '\\', '|', '?', '*'] then '_' else c)

/-- Kind of a filesystem entry yielded by `directory.rglob('*')`.  Symlinks
are classified by what they resolve to, because `pathlib.Path.is_file`
follows symlinks. -/
inductive EntryKind
  | regularFile
  | directory
  | symlinkToRegular
  | symlinkToDirectory
  | brokenSymlink
  | otherKind
deriving DecidableEq, Repr

/-- Python `Path.is_file()`: true iff the path resolves to a regular file —
true for a regular file and for a symlink whose target is a regular file. -/
def isFileB : EntryKind → Bool
  | .regularFile => true
  | .symlinkToRegular => true
  | _ => false

/-- One entry of the recursive listing: its path (a list of name components)
and its kind. -/
structure Entry where
  path : List (List Char)
  kind : EntryKind
deriving DecidableEq, Repr

/-- main.py lines 35-37 (`get_files`): `[p for p in directory.rglob('*') if
p.is_file()]`.  The argument is the sequence of entries `rglob('*')` yields
for the directory. -/
def get_files (listing : List Entry) : List Entry :=
  listing.filter (fun e => isFileB e.kind)

/-- The enumeration as the spec's words describe it: "includes only regular
files (symlinks/directories excluded)".  Written from the spec for comparison
with `get_files` (which is written from the code). -/
def list_files_spec (listing : List Entry) : List Entry :=
  listing.filter (fun e => e.kind = EntryKind.regularFile)

/-- Outcome of one loop iteration of `upload_file` for a given attempt index:
`success` — the `execute()` call succeeds; `httpError` — the `execute()` call
raises `HttpError` (caught by the loop); `fileNotFound` — the
`MediaFileUpload(str(file_path), ...)` constructor raises `FileNotFoundError`
(the file vanished), which happens before the `try` block and before any
backend call. -/
inductive AttemptOutcome
  | success
  | httpError
  | fileNotFound
deriving DecidableEq, Repr

/-- main.py line 20. -/
def MAX_RETRIES : Nat := 3

/-- The retry loop of `upload_file` (main.py lines 106-122), from attempt
index `attempt` with `remaining` iterations left in `range(MAX_RETRIES)`.
`att a` is what attempt `a` does.  Returns the function's outcome
(`Except.error` when a `FileNotFoundError` escapes, `Except.ok b` for
`return b`) paired with the number of backend `execute()` calls issued. -/
def uploadGo (att : Nat → AttemptOutcome) : Nat → Nat → Except PyErr Bool × Nat
  | _, 0 => (.ok false, 0)
  | attempt, remaining + 1 =>
    match att attempt with
    | .fileNotFound => (.error .fileNotFoundError, 0)
    | .success => (.ok true, 1)
    | .httpError =>
      if attempt < MAX_RETRIES - 1 then
        let r := uploadGo att (attempt + 1) remaining
        (r.1, r.2 + 1)
      else
        (.ok false, 1)

/-- main.py lines 99-122 (`upload_file`): the retry loop started at attempt 0
with `MAX_RETRIES` iterations. -/
def upload_file (att : Nat → AttemptOutcome) : Except PyErr Bool × Nat :=
  uploadGo att 0 MAX_RETRIES

/-- A backend call made during a run: credential acquisition
(`authenticate_google`, main.py line 135), the folder-creation call with the
sanitized display name and the id the backend returns (main.py line 95), or
one upload `execute()` call for the file at position `idx` of the enumerated
list, parented under `parent` (main.py lines 110-114). -/
inductive Event
  | authenticate
  | createFolder (name fid : List Char)
  | uploadExec (idx : Nat) (parent : List Char)
deriving DecidableEq, Repr

/-- The `for file_path in files` loop of `upload_files` (main.py lines
141-143), processing the files of `fs` whose first element sits at position
`i` of the enumerated list.  `att i a` is what attempt `a` on file `i` does.
Returns the upload `execute()` events and either the success count
(`success_count`) or the exception that aborted the loop. -/
def processFrom (att : Nat → Nat → AttemptOutcome) (fid : List Char) :
    Nat → List Entry → List Event × Except PyErr Nat
  | _, [] => ([], .ok 0)
  | i, _ :: rest =>
    match upload_file (att i) with
    | (.error e, k) => (List.replicate k (.uploadExec i fid), .error e)
    | (.ok b, k) =>
      match processFrom att fid (i + 1) rest with
      | (evs2, .error e) => (List.replicate k (.uploadExec i fid) ++ evs2, .error e)
      | (evs2, .ok c) =>
        (List.replicate k (.uploadExec i fid) ++ evs2, .ok ((if b then 1 else 0) + c))

/-- The environment of one run: the root directory's `exists()` / `is_dir()`
answers and base name, the `rglob('*')` listing, the id the backend returns
for the created folder, the timestamp string of `datetime.now()`, whether
credential acquisition raises (`authErr`), whether the folder-creation call
raises (`createErr`), and the per-file per-attempt upload outcomes. -/
structure Env where
  dirExists : Bool
  dirIsDir : Bool
  dirName : List Char
  listing : List Entry
  folderId : List Char
  timestamp : List Char
  authErr : Option PyErr
  createErr : Option PyErr
  att : Nat → Nat → AttemptOutcome

/-- Result of `upload_files`: the backend calls made, the outcome (normal
return or propagating exception), whether the empty-directory warning
(main.py line 132) was logged, and the logged final counts
`(success_count, total, failure_count)` (main.py lines 145-149) when the run
reached them. -/
structure RunResult where
  events : List Event
  outcome : Except PyErr Unit
  emptyWarn : Bool
  summary : Option (Nat × Nat × Nat)
deriving Repr

/-- main.py lines 124-149 (`upload_files`). -/
def upload_files (env : Env) (folderName : Option (List Char)) : RunResult :=
  if !env.dirExists || !env.dirIsDir then
    ⟨[], .ok (), false, none⟩
  else if (get_files env.listing).isEmpty then
    ⟨[], .ok (), true, none⟩
  else
    match env.authErr with
    | some e => ⟨[.authenticate], .error e, false, none⟩
    | none =>
      match env.createErr with
      | some e =>
        ⟨[.authenticate,
          .createFolder (destFolderName folderName env.dirName env.timestamp) env.folderId],
         .error e, false, none⟩
      | none =>
        match processFrom env.att env.folderId 0 (get_files env.listing) with
        | (evs, .error e) =>
          ⟨.authenticate ::
            .createFolder (destFolderName folderName env.dirName env.timestamp) env.folderId ::
            evs,
           .error e, false, none⟩
        | (evs, .ok succ) =>
          ⟨.authenticate ::
            .createFolder (destFolderName folderName env.dirName env.timestamp) env.folderId ::
            evs,
           .ok (), false,
           some (succ, (get_files env.listing).length,
                 (get_files env.listing).length - succ)⟩

/-- main.py lines 152-170 (`main`): a normal return of `upload_files` exits 0
(implicit), every caught exception (`FileNotFoundError`, `PermissionError`,
`Exception`) exits 1. -/
def mainExit (env : Env) (folderName : Option (List Char)) : Nat :=
  match (upload_files env folderName).outcome with
  | .ok _ => 0
  | .error _ => 1

/-- Is this event the upload `execute()` call of file `i`? -/
def isExecOf (i : Nat) : Event → Bool
  | .uploadExec i' _ => i' = i
  | _ => false

/-- Number of upload `execute()` calls for file `i` in a trace. -/
def execCount (evs : List Event) (i : Nat) : Nat :=
  (evs.filter (isExecOf i)).length

/-- Is this event a folder-creation call? -/
def isCreateEvent : Event → Bool
  | .createFolder _ _ => true
  | _ => false

/-- An OAuth credential as `get_credentials` inspects it: the `valid`,
`expired` and (presence of) `refresh_token` attributes. -/
structure Cred where
  valid : Bool
  expired : Bool
  refreshToken : Bool
deriving DecidableEq, Repr

/-- The steps `get_credentials` can take, in order of occurrence: the
warning for a corrupt `token.json` (main.py line 48), a `creds.refresh`
attempt (line 54), the interactive `InstalledAppFlow` (lines 63-64), and the
write of `token.json` (lines 72-73). -/
inductive AuthStep
  | warnedCorruptToken
  | ranRefresh
  | ranInteractiveFlow
  | wroteToken
deriving DecidableEq, Repr

/-- Environment of `get_credentials`: does `token.json` exist; what parsing
it yields (`none` models the `ValueError` branch); what `creds.refresh` yields
(`none` models `RefreshError`); does `credentials.json` exist; what the
interactive flow yields (`none` models a raised exception). -/
structure AuthEnv where
  tokenExists : Bool
  parseResult : Option Cred
  refreshResult : Cred → Option Cred
  credsFileExists : Bool
  flowResult : Option Cred

/-- Steps taken so far, paired with the function's result. -/
structure AuthOutcome where
  steps : List AuthStep
  result : Except PyErr Cred
deriving Repr

/-- main.py lines 59-70: the `if not creds:` block — require
`credentials.json`, else raise `FileNotFoundError`; run the interactive flow;
any exception it raises propagates. -/
def flowPart (steps : List AuthStep) (env : AuthEnv) : AuthOutcome :=
  if env.credsFileExists then
    match env.flowResult with
    | some c => ⟨steps ++ [.ranInteractiveFlow, .wroteToken], .ok c⟩
    | none => ⟨steps ++ [.ranInteractiveFlow], .error .otherError⟩
  else
    ⟨steps, .error .fileNotFoundError⟩

/-- main.py lines 40-75 (`get_credentials`).  Parsing of an existing
`token.json` gives `creds` (with a warning on `ValueError`); if `creds` is
present and valid it is returned as is; otherwise an expired credential with
a refresh token is refreshed (`creds = None` on `RefreshError`); if `creds`
is still `None` the interactive flow runs; the `if not creds or not
creds.valid` block ends by writing `token.json`. -/
def get_credentials (env : AuthEnv) : AuthOutcome :=
  let parsed : Option Cred × Bool :=
    if env.tokenExists then
      match env.parseResult with
      | some c => (some c, false)
      | none => (none, true)
    else (none, false)
  let warnSteps : List AuthStep :=
    if parsed.2 then [.warnedCorruptToken] else []
  match parsed.1 with
  | some c =>
    if c.valid then
      ⟨warnSteps, .ok c⟩
    else
      if c.expired && c.refreshToken then
        match env.refreshResult c with
        | some c2 => ⟨warnSteps ++ [.ranRefresh, .wroteToken], .ok c2⟩
        | none => flowPart (warnSteps ++ [.ranRefresh]) env
      else
        ⟨warnSteps ++ [.wroteToken], .ok c⟩
  | none => flowPart warnSteps env

/-- C10: the filename-sanitization function is idempotent — sanitizing an
already-sanitized string changes nothing — and it preserves the length of its
input, since each forbidden character is replaced by exactly one underscore. -/
theorem sanitize_filename_C10 (s : List Char) :
    sanitize_filename (sanitize_filename s) = sanitize_filename s ∧
    (sanitize_filename s).length = s.length := by
  refine ⟨?_, by simp [sanitize_filename]⟩
  simp only [sanitize_filename, List.map_map]
  refine List.map_congr_left ?_
  intro c _
  simp only [Function.comp_apply]
  by_cases h : c ∈ forbiddenChars
  · simp [h, show ('_' : Char) ∉ forbiddenChars from by decide]
  · simp [h]

/-- C5 (amended): the destination folder name is the caller-supplied name if
given and non-empty, else the root directory's base name, with `_` and the
timestamp appended, and then every occurrence of `<>:"/\|?*` replaced by `_`
while every other character is left unaltered.  (The code's `folder_name or
directory.name` treats an empty caller-supplied string as absent.) -/
theorem destFolderName_C5 (callerName : Option (List Char)) (dirName timestamp : List Char) :
    destFolderName callerName dirName timestamp =
      ((match callerName with
        | some s => if s.isEmpty then dirName else s
        | none => dirName) ++ '_' :: timestamp).map
        (fun c => if c ∈ ['<', '>', ':', '"', '/', '\\', '|', '?', '*'] then '_' else c) := by
  cases callerName with
  | none => rfl
  | some s =>
    by_cases h : s.isEmpty <;>
      simp [destFolderName, create_drive_folder_name, sanitize_filename, pyOr,
        forbiddenChars, h]

/-- C5 counterexample: a caller-supplied name that is given but empty (e.g.
`--name ""`) is discarded by `folder_name or directory.name` in favour of the
directory base name, so the folder name is not built from the caller-supplied
name as the claim states. -/
theorem destFolderName_C5_counterexample :
    destFolderName (some []) ['d'] ['t'] ≠ destFolderNameSpec (some []) ['d'] ['t'] := by
  decide

/-- C7 (amended): `get_files` returns exactly the entries of the recursive
listing whose path resolves to a regular file — the regular files and the
symlinks whose target is a regular file — excluding directories, broken
symlinks and other non-regular entries.  (`Path.is_file()` follows symlinks,
so symlinks to regular files are included, contrary to the claim.) -/
theorem get_files_C7 (listing : List Entry) (e : Entry) :
    e ∈ get_files listing ↔
      e ∈ listing ∧
        (e.kind = EntryKind.regularFile ∨ e.kind = EntryKind.symlinkToRegular) := by
  have h : ∀ k : EntryKind,
      isFileB k = true ↔ (k = EntryKind.regularFile ∨ k = EntryKind.symlinkToRegular) := by
    intro k; cases k <;> decide
  rw [get_files, List.mem_filter, h e.kind]

/-- A listing holding a single symlink whose target is a regular file. -/
def symlinkListing : List Entry := [⟨[['s']], EntryKind.symlinkToRegular⟩]

/-- C7 counterexample: on a listing holding one symlink to a regular file,
`get_files` keeps the symlink entry, while the spec's enumeration ("symlinks
excluded") returns nothing. -/
theorem get_files_C7_counterexample :
    get_files symlinkListing = [⟨[['s']], EntryKind.symlinkToRegular⟩] ∧
    list_files_spec symlinkListing = [] := by
  decide

/-- C1 (amended): for every run whose root directory does not exist or is not
a directory, `upload_files` logs an error and returns normally without raising
(`return` at main.py line 128), makes no remote calls, and the CLI exits with
code 0, not 1. -/
theorem upload_files_invalid_dir_C1 (env : Env) (cn : Option (List Char))
    (h : env.dirExists = false ∨ env.dirIsDir = false) :
    upload_files env cn = ⟨[], .ok (), false, none⟩ ∧ mainExit env cn = 0 := by
  have hc : (!env.dirExists || !env.dirIsDir) = true := by
    rcases h with h | h <;> simp [h]
  constructor
  · simp only [upload_files, hc]
    rfl
  · simp only [mainExit, upload_files, hc]
    rfl

/-- A run environment whose root directory does not exist. -/
def envNoDir : Env :=
  { dirExists := false, dirIsDir := false, dirName := ['d'], listing := [],
    folderId := ['f'], timestamp := ['t'], authErr := none, createErr := none,
    att := fun _ _ => .success }

/-- Witness for C1 (amended) at a concrete missing-directory environment. -/
theorem upload_files_invalid_dir_C1_witness :
    upload_files envNoDir none = ⟨[], .ok (), false, none⟩ ∧ mainExit envNoDir none = 0 :=
  upload_files_invalid_dir_C1 envNoDir none (Or.inl rfl)

/-- C1 counterexample: on a run whose root directory does not exist, the code
returns normally (no `NotFoundError` propagates) and `main` exits 0, whereas
the claim states the run fails with `NotFoundError` and the CLI exits 1. -/
theorem upload_files_invalid_dir_C1_counterexample :
    (upload_files envNoDir none).events = [] ∧
    (upload_files envNoDir none).outcome = .ok () ∧
    ¬ mainExit envNoDir none = 1 := by
  refine ⟨rfl, rfl, ?_⟩
  intro h
  simp [mainExit, upload_files, envNoDir, upload_files] at h

/-- C2: for every run whose root directory exists but whose enumeration finds
zero files, `upload_files` logs the empty-directory warning and returns with
zero backend calls — no credential acquisition, no remote folder creation and
no uploads appear in the trace. -/
theorem upload_files_empty_C2 (env : Env) (cn : Option (List Char))
    (h1 : env.dirExists = true) (h2 : env.dirIsDir = true)
    (h3 : get_files env.listing = []) :
    upload_files env cn = ⟨[], .ok (), true, none⟩ := by
  simp [upload_files, h1, h2, h3]

/-- A run environment whose root directory exists and holds one subdirectory
and no files. -/
def envEmptyDir : Env :=
  { dirExists := true, dirIsDir := true, dirName := ['d'],
    listing := [⟨[['s']], EntryKind.directory⟩],
    folderId := ['f'], timestamp := ['t'], authErr := none, createErr := none,
    att := fun _ _ => .success }

/-- Witness for C2 at a concrete environment with a directory entry and zero
files. -/
theorem upload_files_empty_C2_witness :
    upload_files envEmptyDir none = ⟨[], .ok (), true, none⟩ :=
  upload_files_empty_C2 envEmptyDir none rfl rfl rfl

/-- A file whose first attempt succeeds is uploaded with one backend call. -/
lemma upload_file_first_success (att : Nat → AttemptOutcome)
    (h : att 0 = .success) : upload_file att = (.ok true, 1) := by
  simp [upload_file, MAX_RETRIES, uploadGo, h]

/-- A file whose every attempt raises `HttpError` is recorded as failed after
exactly `MAX_RETRIES` backend calls. -/
lemma upload_file_all_fail (att : Nat → AttemptOutcome)
    (h : ∀ a, att a = .httpError) : upload_file att = (.ok false, 3) := by
  simp [upload_file, MAX_RETRIES, uploadGo, h 0, h 1, h 2]

/-- C3: for every file and every backend whose upload call raises `HttpError`
exactly `k` times (`k < 3`) and then succeeds, `upload_file` returns success
after exactly `k + 1` backend `execute()` calls; and in every case at most 3
backend calls are issued. -/
theorem upload_file_retry_C3 (att : Nat → AttemptOutcome) :
    (∀ k, k < 3 → (∀ i, i < k → att i = .httpError) → att k = .success →
      upload_file att = (.ok true, k + 1)) ∧
    (upload_file att).2 ≤ 3 := by
  constructor
  · intro k hk hfail hsucc
    interval_cases k
    · exact upload_file_first_success att hsucc
    · have h0 := hfail 0 (by omega)
      simp [upload_file, MAX_RETRIES, uploadGo, h0, hsucc]
    · have h0 := hfail 0 (by omega)
      have h1 := hfail 1 (by omega)
      simp [upload_file, MAX_RETRIES, uploadGo, h0, h1, hsucc]
  · rcases h0 : att 0 with _ | _ | _ <;>
      rcases h1 : att 1 with _ | _ | _ <;>
        rcases h2 : att 2 with _ | _ | _ <;>
          simp [upload_file, MAX_RETRIES, uploadGo, h0, h1, h2]

/-- A backend behaviour whose first attempt raises `HttpError` and whose
later attempts succeed. -/
def attOneFailure : Nat → AttemptOutcome :=
  fun a => if a = 0 then .httpError else .success

/-- Witness for C3 at `k = 1`: one `HttpError` then success gives a
successful upload with exactly 2 backend calls, within the 3-call bound. -/
theorem upload_file_retry_C3_witness :
    upload_file attOneFailure = (.ok true, 2) ∧ (upload_file attOneFailure).2 ≤ 3 :=
  ⟨(upload_file_retry_C3 attOneFailure).1 1 (by decide)
      (fun i hi => by interval_cases i; rfl) rfl,
    (upload_file_retry_C3 attOneFailure).2⟩

/-- Splitting a trace splits the per-file upload-call count. -/
lemma execCount_append (a b : List Event) (i : Nat) :
    execCount (a ++ b) i = execCount a i + execCount b i := by
  simp [execCount, List.filter_append]

/-- The upload calls of one file all count towards that file. -/
lemma execCount_replicate_self (k i : Nat) (fid : List Char) :
    execCount (List.replicate k (.uploadExec i fid)) i = k := by
  induction k with
  | zero => rfl
  | succ n ih =>
    simp [execCount, List.replicate_succ, List.filter_cons, isExecOf, ih]

/-- Every event the per-file loop emits is an upload `execute()` call
parented under the folder id the loop was given. -/
lemma processFrom_events_shape (att : Nat → Nat → AttemptOutcome) (fid : List Char) :
    ∀ (fs : List Entry) (i : Nat), ∀ e ∈ (processFrom att fid i fs).1,
      ∃ m, e = .uploadExec m fid := by
  intro fs
  induction fs with
  | nil => intro i e he; simp [processFrom] at he
  | cons f rest ih =>
    intro i e he
    rw [processFrom] at he
    rcases hu : upload_file (att i) with ⟨res, k⟩
    rw [hu] at he
    cases res with
    | error err =>
      simp only at he
      exact ⟨i, List.eq_of_mem_replicate he⟩
    | ok b =>
      rcases hp : processFrom att fid (i + 1) rest with ⟨evs2, r2⟩
      rw [hp] at he
      cases r2 with
      | error err =>
        simp only [List.mem_append] at he
        rcases he with he | he
        · exact ⟨i, List.eq_of_mem_replicate he⟩
        · exact ih (i + 1) e (by rw [hp]; exact he)
      | ok c =>
        simp only [List.mem_append] at he
        rcases he with he | he
        · exact ⟨i, List.eq_of_mem_replicate he⟩
        · exact ih (i + 1) e (by rw [hp]; exact he)

/-- C6: for every run that reaches the upload phase (valid directory, at
least one file, credential acquisition and folder creation succeed), exactly
one folder-creation call appears in the trace, and every upload `execute()`
call — in particular every successful upload — is parented under that single
folder's id. -/
theorem upload_files_single_folder_C6 (env : Env) (cn : Option (List Char))
    (h1 : env.dirExists = true) (h2 : env.dirIsDir = true)
    (h3 : (get_files env.listing).isEmpty = false)
    (h4 : env.authErr = none) (h5 : env.createErr = none) :
    ((upload_files env cn).events.filter isCreateEvent).length = 1 ∧
    ∀ e ∈ (upload_files env cn).events, ∀ i p, e = .uploadExec i p → p = env.folderId := by
  rcases hp : processFrom env.att env.folderId 0 (get_files env.listing) with ⟨evs, r⟩
  have hshape : ∀ e ∈ evs, ∃ m, e = Event.uploadExec m env.folderId := by
    intro e he
    exact processFrom_events_shape env.att env.folderId (get_files env.listing) 0 e
      (by rw [hp]; exact he)
  have hevents : (upload_files env cn).events =
      .authenticate ::
        .createFolder (destFolderName cn env.dirName env.timestamp) env.folderId :: evs := by
    cases r with
    | error e => simp [upload_files, h1, h2, h3, h4, h5, hp]
    | ok c => simp [upload_files, h1, h2, h3, h4, h5, hp]
  rw [hevents]
  constructor
  · have hnil : evs.filter isCreateEvent = [] := by
      rw [List.filter_eq_nil_iff]
      intro e he
      obtain ⟨m, rfl⟩ := hshape e he
      simp [isCreateEvent]
    simp [List.filter_cons, isCreateEvent, hnil]
  · intro e he i p hep
    rcases he with _ | ⟨_, he⟩
    · simp at hep
    · rcases he with _ | ⟨_, he⟩
      · simp at hep
      · obtain ⟨m, rfl⟩ := hshape e he
        exact (Event.uploadExec.injEq .. ▸ hep).2.symm

/-- A run environment with one regular file and a backend that always
succeeds. -/
def envOneFile : Env :=
  { dirExists := true, dirIsDir := true, dirName := ['d'],
    listing := [⟨[['a']], EntryKind.regularFile⟩],
    folderId := ['f'], timestamp := ['t'], authErr := none, createErr := none,
    att := fun _ _ => .success }

/-- Witness for C6 at a concrete one-file run: exactly one folder-creation
call appears in the trace. -/
theorem upload_files_single_folder_C6_witness :
    ((upload_files envOneFile none).events.filter isCreateEvent).length = 1 :=
  (upload_files_single_folder_C6 envOneFile none rfl rfl rfl rfl rfl).1

/-- Upload calls of one file never count towards another file. -/
lemma execCount_replicate_other (k i m : Nat) (fid : List Char) (h : m ≠ i) :
    execCount (List.replicate k (.uploadExec i fid)) m = 0 := by
  induction k with
  | zero => rfl
  | succ n ih =>
    have hf : isExecOf m (Event.uploadExec i fid) = false := by
      simp [isExecOf]
      omega
    simp only [execCount, List.replicate_succ, List.filter_cons, hf] at ih ⊢
    simpa using ih

/-- A file that vanishes before the read of its bytes at attempt `a` (after
`a` retried `HttpError` attempts) makes `upload_file` raise
`FileNotFoundError` after `a` backend calls. -/
lemma upload_file_vanish (att : Nat → AttemptOutcome) (a : Nat) (ha : a < 3)
    (hpre : ∀ b, b < a → att b = .httpError) (hv : att a = .fileNotFound) :
    upload_file att = (.error .fileNotFoundError, a) := by
  interval_cases a
  · simp [upload_file, MAX_RETRIES, uploadGo, hv]
  · have h0 := hpre 0 (by omega)
    simp [upload_file, MAX_RETRIES, uploadGo, h0, hv]
  · have h0 := hpre 0 (by omega)
    have h1 := hpre 1 (by omega)
    simp [upload_file, MAX_RETRIES, uploadGo, h0, h1, hv]

/-- When the files before position `j` return from their upload normally and
the upload of the file at position `j` raises `FileNotFoundError`, the loop
aborts with that error and no file after position `j` gets any upload call. -/
lemma processFrom_aborts (att : Nat → Nat → AttemptOutcome) (fid : List Char) (j : Nat)
    (hj : (upload_file (att j)).1 = Except.error PyErr.fileNotFoundError) :
    ∀ (fs : List Entry) (i : Nat), i ≤ j → j < i + fs.length →
      (∀ m, i ≤ m → m < j → ∃ b k, upload_file (att m) = (.ok b, k)) →
      ∃ evs, processFrom att fid i fs = (evs, .error .fileNotFoundError) ∧
        ∀ m, j < m → execCount evs m = 0 := by
  intro fs
  induction fs with
  | nil =>
    intro i hij hjlt _
    exfalso
    simp at hjlt
    omega
  | cons f rest ih =>
    intro i hij hjlt hok
    simp only [List.length_cons] at hjlt
    by_cases hii : i = j
    · rcases hu : upload_file (att i) with ⟨res, kj⟩
      have hres : res = Except.error PyErr.fileNotFoundError := by
        rw [hii] at hu
        rw [hu] at hj
        exact hj
      subst hres
      refine ⟨List.replicate kj (.uploadExec i fid), ?_, ?_⟩
      · simp [processFrom, hu]
      · intro m hm
        exact execCount_replicate_other kj i m fid (by omega)
    · have hlt : i < j := lt_of_le_of_ne hij hii
      obtain ⟨b, k, hbk⟩ := hok i (le_refl i) hlt
      obtain ⟨evs2, hp, hz⟩ := ih (i + 1) (by omega) (by omega)
        (fun m hm1 hm2 => hok m (by omega) hm2)
      refine ⟨List.replicate k (.uploadExec i fid) ++ evs2, ?_, ?_⟩
      · simp [processFrom, hbk, hp]
      · intro m hm
        rw [execCount_append]
        have hr0 := execCount_replicate_other k i m fid (by omega)
        have hz0 := hz m hm
        omega

/-- C8 (amended): a vanished file is NOT tolerated.  For every run in which
the file at position `j` of the enumerated list vanishes before the read of
its bytes at attempt `a` — its earlier attempts having raised `HttpError`
and the files before it having returned from their upload normally, so the
loop does reach that read — the `FileNotFoundError` raised by
`MediaFileUpload`, which sits outside the `try` block whose `except` clause
only catches `HttpError`, aborts the run: no summary is logged, no file
after position `j` is ever attempted, and the CLI catches the error at top
level, logs it and exits 1. -/
theorem upload_files_vanished_C8 (env : Env) (cn : Option (List Char)) (j a : Nat)
    (h1 : env.dirExists = true) (h2 : env.dirIsDir = true)
    (h3 : env.authErr = none) (h4 : env.createErr = none)
    (h5 : j < (get_files env.listing).length)
    (h6 : a < 3)
    (h7 : ∀ b, b < a → env.att j b = .httpError)
    (h8 : env.att j a = .fileNotFound)
    (h9 : ∀ m, m < j → ∃ b k, upload_file (env.att m) = (.ok b, k)) :
    (upload_files env cn).outcome = .error .fileNotFoundError ∧
    mainExit env cn = 1 ∧
    (upload_files env cn).summary = none ∧
    ∀ i, j < i → execCount (upload_files env cn).events i = 0 := by
  have hj : upload_file (env.att j) = (.error .fileNotFoundError, a) :=
    upload_file_vanish (env.att j) a h6 h7 h8
  obtain ⟨evs, hp, hzero⟩ := processFrom_aborts env.att env.folderId j
    (by rw [hj]) (get_files env.listing) 0 (by omega) (by omega)
    (fun m _ hm => h9 m hm)
  have hne : (get_files env.listing).isEmpty = false := by
    cases hfs : get_files env.listing with
    | nil => rw [hfs] at h5; simp at h5
    | cons f rest => simp
  have hrun : upload_files env cn =
      ⟨.authenticate ::
        .createFolder (destFolderName cn env.dirName env.timestamp) env.folderId :: evs,
       .error .fileNotFoundError, false, none⟩ := by
    simp [upload_files, h1, h2, h3, h4, hne, hp]
  refine ⟨?_, ?_, ?_, ?_⟩
  · rw [hrun]
  · simp [mainExit, hrun]
  · rw [hrun]
  · intro i hij
    rw [hrun]
    have hz := hzero i hij
    simp only [execCount, List.filter_cons] at hz ⊢
    simp only [isExecOf] at hz ⊢
    simpa using hz

/-- A three-file run whose first file succeeds at once, whose second file
raises `HttpError` at its first attempt and then vanishes before the read of
its second attempt, and whose third file would always succeed. -/
def envVanishedLater : Env :=
  { dirExists := true, dirIsDir := true, dirName := ['d'],
    listing := [⟨[['a']], EntryKind.regularFile⟩, ⟨[['b']], EntryKind.regularFile⟩,
                ⟨[['c']], EntryKind.regularFile⟩],
    folderId := ['f'], timestamp := ['t'], authErr := none, createErr := none,
    att := fun i a =>
      if i = 1 then (if a = 0 then .httpError else .fileNotFound) else .success }

/-- A run environment with two regular files whose first file vanishes before
its first read while the second would always succeed. -/
def envVanished : Env :=
  { dirExists := true, dirIsDir := true, dirName := ['d'],
    listing := [⟨[['a']], EntryKind.regularFile⟩, ⟨[['b']], EntryKind.regularFile⟩],
    folderId := ['f'], timestamp := ['t'], authErr := none, createErr := none,
    att := fun i _ => if i = 0 then .fileNotFound else .success }

/-- Witness for C8 (amended) at the concrete three-file run whose second
file vanishes at its second attempt: the run aborts with
`FileNotFoundError`, the CLI exits 1, no summary is logged and the third
file is never attempted. -/
theorem upload_files_vanished_C8_witness :
    (upload_files envVanishedLater none).outcome = .error .fileNotFoundError ∧
    mainExit envVanishedLater none = 1 ∧
    (upload_files envVanishedLater none).summary = none ∧
    execCount (upload_files envVanishedLater none).events 2 = 0 := by
  have h := upload_files_vanished_C8 envVanishedLater none 1 1 rfl rfl rfl rfl
    (by decide) (by decide) (by decide) rfl
    (fun m hm => by interval_cases m; exact ⟨true, 1, rfl⟩)
  exact ⟨h.1, h.2.1, h.2.2.1, h.2.2.2 2 (by decide)⟩

/-- C8 counterexample: in the two-file run whose first file vanished, the run
is aborted by a propagating `FileNotFoundError`, the CLI exits 1 and the
second file is never attempted — the claim's "tolerated and non-fatal, the
run proceeds to the remaining files" is false. -/
theorem upload_files_vanished_C8_counterexample :
    (upload_files envVanished none).outcome = .error .fileNotFoundError ∧
    ¬ mainExit envVanished none = 0 ∧
    execCount (upload_files envVanished none).events 1 = 0 :=
  ⟨rfl, by decide, rfl⟩

/-- Equation for one loop iteration whose upload returns normally. -/
lemma processFrom_cons_ok (att : Nat → Nat → AttemptOutcome) (fid : List Char)
    (i : Nat) (f : Entry) (rest : List Entry) (b : Bool) (k : Nat)
    (evs2 : List Event) (c : Nat)
    (h1 : upload_file (att i) = (.ok b, k))
    (h2 : processFrom att fid (i + 1) rest = (evs2, .ok c)) :
    processFrom att fid i (f :: rest) =
      (List.replicate k (.uploadExec i fid) ++ evs2, .ok ((if b then 1 else 0) + c)) := by
  simp [processFrom, h1, h2]

/-- When every file from position `i` on succeeds at its first attempt, the
loop uploads all of them with one backend call each. -/
lemma processFrom_all_ok (att : Nat → Nat → AttemptOutcome) (fid : List Char) :
    ∀ (fs : List Entry) (i : Nat),
      (∀ d, d < fs.length → upload_file (att (i + d)) = (.ok true, 1)) →
      ∃ evs, processFrom att fid i fs = (evs, .ok fs.length) ∧
        ∀ d, d < fs.length → 0 < execCount evs (i + d) := by
  intro fs
  induction fs with
  | nil =>
    intro i _
    exact ⟨[], rfl, fun d hd => by simp at hd⟩
  | cons f rest ih =>
    intro i h
    have h0 : upload_file (att i) = (.ok true, 1) := by
      have hh := h 0 (by simp)
      simpa using hh
    obtain ⟨evs2, hp, hcount⟩ := ih (i + 1) (fun d hd => by
      have hh := h (d + 1) (by simp; omega)
      have e : i + (d + 1) = i + 1 + d := by omega
      rwa [e] at hh)
    refine ⟨List.replicate 1 (.uploadExec i fid) ++ evs2, ?_, ?_⟩
    · rw [processFrom_cons_ok att fid i f rest true 1 evs2 rest.length h0 hp]
      simp [Nat.add_comm]
    · intro d hd
      rw [execCount_append]
      cases d with
      | zero =>
        have h1 : execCount (List.replicate 1 (Event.uploadExec i fid)) (i + 0) = 1 := by
          simpa using execCount_replicate_self 1 i fid
        omega
      | succ d' =>
        have hlt : d' < rest.length := by simp at hd; omega
        have hc := hcount d' hlt
        have e : i + (d' + 1) = i + 1 + d' := by omega
        rw [e]
        omega

/-- When the file at position `j` exhausts its three attempts and every other
file succeeds at its first attempt, the loop still processes every file,
counts `length - 1` successes and returns normally. -/
lemma processFrom_one_exhausted (att : Nat → Nat → AttemptOutcome) (fid : List Char)
    (j : Nat) (hj3 : upload_file (att j) = (.ok false, 3)) :
    ∀ (fs : List Entry) (i : Nat), i ≤ j → j < i + fs.length →
      (∀ d, d < fs.length → i + d ≠ j → upload_file (att (i + d)) = (.ok true, 1)) →
      ∃ evs, processFrom att fid i fs = (evs, .ok (fs.length - 1)) ∧
        ∀ d, d < fs.length → 0 < execCount evs (i + d) := by
  intro fs
  induction fs with
  | nil =>
    intro i hij hjlt _
    exfalso
    simp at hjlt
    omega
  | cons f rest ih =>
    intro i hij hjlt hok
    simp only [List.length_cons] at hjlt
    by_cases hii : i = j
    · have hji : upload_file (att i) = (.ok false, 3) := by rw [hii]; exact hj3
      obtain ⟨evs2, hp, hcount⟩ := processFrom_all_ok att fid rest (i + 1) (fun d hd => by
        have hh := hok (d + 1) (by simp; omega) (by omega)
        have e : i + (d + 1) = i + 1 + d := by omega
        rwa [e] at hh)
      refine ⟨List.replicate 3 (.uploadExec i fid) ++ evs2, ?_, ?_⟩
      · rw [processFrom_cons_ok att fid i f rest false 3 evs2 rest.length hji hp]
        simp
      · intro d hd
        rw [execCount_append]
        cases d with
        | zero =>
          have h3 : execCount (List.replicate 3 (Event.uploadExec i fid)) (i + 0) = 3 := by
            simpa using execCount_replicate_self 3 i fid
          omega
        | succ d' =>
          have hlt : d' < rest.length := by simp at hd; omega
          have hc := hcount d' hlt
          have e : i + (d' + 1) = i + 1 + d' := by omega
          rw [e]
          omega
    · have hlt2 : i < j := lt_of_le_of_ne hij hii
      have h0 : upload_file (att i) = (.ok true, 1) := by
        have hh := hok 0 (by simp) (by omega)
        simpa using hh
      have hr1 : 1 ≤ rest.length := by omega
      obtain ⟨evs2, hp, hcount⟩ := ih (i + 1) (by omega) (by omega) (fun d hd hne => by
        have hh := hok (d + 1) (by simp; omega) (by omega)
        have e : i + (d + 1) = i + 1 + d := by omega
        rwa [e] at hh)
      refine ⟨List.replicate 1 (.uploadExec i fid) ++ evs2, ?_, ?_⟩
      · rw [processFrom_cons_ok att fid i f rest true 1 evs2 (rest.length - 1) h0 hp]
        have e2 : (if true then 1 else 0) + (rest.length - 1) = (f :: rest).length - 1 := by
          simp
          omega
        rw [e2]
      · intro d hd
        rw [execCount_append]
        cases d with
        | zero =>
          have h1 : execCount (List.replicate 1 (Event.uploadExec i fid)) (i + 0) = 1 := by
            simpa using execCount_replicate_self 1 i fid
          omega
        | succ d' =>
          have hlt3 : d' < rest.length := by simp at hd; omega
          have hc := hcount d' hlt3
          have e : i + (d' + 1) = i + 1 + d' := by omega
          rw [e]
          omega

/-- C4: for every run over N files in which exactly one file (position `j`)
raises `HttpError` on all its attempts and every other file succeeds at its
first attempt, the run still attempts every file (each has at least one
upload call in the trace), logs `succeeded = N - 1` and `failed = 1`, returns
normally and the CLI exits 0 — the exhausted file aborts nothing. -/
theorem upload_files_one_exhausted_C4 (env : Env) (cn : Option (List Char)) (j : Nat)
    (h1 : env.dirExists = true) (h2 : env.dirIsDir = true)
    (h3 : env.authErr = none) (h4 : env.createErr = none)
    (h5 : j < (get_files env.listing).length)
    (h6 : ∀ a, env.att j a = .httpError)
    (h7 : ∀ i, i < (get_files env.listing).length → i ≠ j → env.att i 0 = .success) :
    (upload_files env cn).summary =
      some ((get_files env.listing).length - 1, (get_files env.listing).length, 1) ∧
    (upload_files env cn).outcome = .ok () ∧
    mainExit env cn = 0 ∧
    ∀ i, i < (get_files env.listing).length →
      0 < execCount (upload_files env cn).events i := by
  have hj3 : upload_file (env.att j) = (.ok false, 3) := upload_file_all_fail _ h6
  obtain ⟨evs, hp, hcount⟩ := processFrom_one_exhausted env.att env.folderId j hj3
    (get_files env.listing) 0 (by omega) (by omega)
    (fun d hd hne => upload_file_first_success _
      (h7 (0 + d) (by omega) (by omega)))
  have hne : (get_files env.listing).isEmpty = false := by
    cases hfs : get_files env.listing with
    | nil => rw [hfs] at h5; simp at h5
    | cons f rest => simp
  have hlen1 : (get_files env.listing).length -
      ((get_files env.listing).length - 1) = 1 := by omega
  have hrun : upload_files env cn =
      ⟨.authenticate ::
        .createFolder (destFolderName cn env.dirName env.timestamp) env.folderId :: evs,
       .ok (), false,
       some ((get_files env.listing).length - 1, (get_files env.listing).length, 1)⟩ := by
    simp [upload_files, h1, h2, h3, h4, hne, hp, hlen1]
  refine ⟨?_, ?_, ?_, ?_⟩
  · rw [hrun]
  · rw [hrun]
  · simp [mainExit, hrun]
  · intro i hi
    rw [hrun]
    have hc := hcount i hi
    simp only [execCount, List.filter_cons] at hc ⊢
    simp only [isExecOf, Nat.zero_add] at hc ⊢
    simpa using hc

/-- A two-file run whose first file always raises `HttpError` and whose
second file succeeds at once. -/
def envExhausted : Env :=
  { dirExists := true, dirIsDir := true, dirName := ['d'],
    listing := [⟨[['a']], EntryKind.regularFile⟩, ⟨[['b']], EntryKind.regularFile⟩],
    folderId := ['f'], timestamp := ['t'], authErr := none, createErr := none,
    att := fun i _ => if i = 0 then .httpError else .success }

/-- Witness for C4 at the concrete two-file run with file 0 exhausted:
`succeeded = 1`, `failed = 1`, normal return, exit 0, and the second file was
attempted. -/
theorem upload_files_one_exhausted_C4_witness :
    (upload_files envExhausted none).summary = some (1, 2, 1) ∧
    (upload_files envExhausted none).outcome = .ok () ∧
    mainExit envExhausted none = 0 ∧
    0 < execCount (upload_files envExhausted none).events 1 :=
  ⟨(upload_files_one_exhausted_C4 envExhausted none 0 rfl rfl rfl rfl (by decide)
      (fun a => rfl) (by decide)).1,
   (upload_files_one_exhausted_C4 envExhausted none 0 rfl rfl rfl rfl (by decide)
      (fun a => rfl) (by decide)).2.1,
   (upload_files_one_exhausted_C4 envExhausted none 0 rfl rfl rfl rfl (by decide)
      (fun a => rfl) (by decide)).2.2.1,
   (upload_files_one_exhausted_C4 envExhausted none 0 rfl rfl rfl rfl (by decide)
      (fun a => rfl) (by decide)).2.2.2 1 (by decide)⟩

/-- C9: for every run in which `token.json` exists but cannot be parsed, the
credential store logs the corrupt-token warning, behaves exactly as if the
token file were absent, and — when `credentials.json` is present — proceeds
to the interactive re-authentication flow and succeeds whenever that flow
succeeds, rather than failing because of the parse error. -/
theorem get_credentials_C9 (env : AuthEnv)
    (h1 : env.tokenExists = true) (h2 : env.parseResult = none) :
    AuthStep.warnedCorruptToken ∈ (get_credentials env).steps ∧
    (get_credentials env).result = (get_credentials { env with tokenExists := false }).result ∧
    (env.credsFileExists = true →
      AuthStep.ranInteractiveFlow ∈ (get_credentials env).steps ∧
      ∀ c, env.flowResult = some c → (get_credentials env).result = .ok c) := by
  rcases hcf : env.credsFileExists with _ | _
  · refine ⟨?_, ?_, ?_⟩
    · simp [get_credentials, h1, h2, flowPart, hcf]
    · simp [get_credentials, h1, h2, flowPart, hcf]
    · intro h; simp [hcf] at h
  · rcases hfr : env.flowResult with _ | c
    · refine ⟨?_, ?_, ?_⟩
      · simp [get_credentials, h1, h2, flowPart, hcf, hfr]
      · simp [get_credentials, h1, h2, flowPart, hcf, hfr]
      · intro _
        refine ⟨by simp [get_credentials, h1, h2, flowPart, hcf, hfr], ?_⟩
        intro c hc
        simp [hfr] at hc
    · refine ⟨?_, ?_, ?_⟩
      · simp [get_credentials, h1, h2, flowPart, hcf, hfr]
      · simp [get_credentials, h1, h2, flowPart, hcf, hfr]
      · intro _
        refine ⟨by simp [get_credentials, h1, h2, flowPart, hcf, hfr], ?_⟩
        intro c2 hc2
        have hcc : c = c2 := Option.some.inj hc2
        subst hcc
        simp [get_credentials, h1, h2, flowPart, hcf, hfr]

/-- A credential-store environment with a corrupt `token.json`, a present
`credentials.json` and an interactive flow that yields a valid credential. -/
def envCorruptToken : AuthEnv :=
  { tokenExists := true, parseResult := none, refreshResult := fun _ => none,
    credsFileExists := true, flowResult := some ⟨true, false, false⟩ }

/-- Witness for C9 at the concrete corrupt-token environment: the warning is
logged and the run obtains the flow's credential. -/
theorem get_credentials_C9_witness :
    AuthStep.warnedCorruptToken ∈ (get_credentials envCorruptToken).steps ∧
    (get_credentials envCorruptToken).result = .ok ⟨true, false, false⟩ :=
  ⟨(get_credentials_C9 envCorruptToken rfl rfl).1,
   ((get_credentials_C9 envCorruptToken rfl rfl).2.2 rfl).2 ⟨true, false, false⟩ rfl⟩
